import Mathlib

/-!
Verification of the load-generation and aggregation harness of the
train-ticket-auto-query repository, as a shallow embedding in Lean 4.

Python floats are modelled as exact rationals, Python strings as lists of
characters, and a Python call that may raise is modelled by an
`Except PyExc` value.  Each definition is translated from the named source
function.
-/

/-- A Python exception value, reduced to the data the harness inspects:
the exception class name and the message string. -/
structure PyExc where
  excType : List Char
  msg : List Char
deriving DecidableEq

/-- `True`/`False` test for an `Except` value (Python: whether the call
returned normally or raised). -/
def except_ok {ε α : Type} : Except ε α → Bool
  | Except.ok _ => true
  | Except.error _ => false

/- ## Weighted selection (src/utils/helpers.py and src/scenarios/runners.py) -/

/-- The accumulation loop shared by `helpers.random_from_weighted` and
`runners._select_random_scenario`: walk the entries in order keeping a
running sum `curr` of the weights, and return the first key whose
cumulative weight satisfies `ra <= curr_sum` (Python line
`if ra <= curr_sum: ret = k; break`); `none` when no entry matches
(Python falls off the loop with `ret = None`). -/
def weighted_walk {α : Type} (ra : ℚ) : List (α × ℚ) → ℚ → Option α
  | [], _ => none
  | (k, w) :: rest, curr =>
    if ra ≤ curr + w then some k else weighted_walk ra rest (curr + w)

/-- `helpers.random_from_weighted`, with the draw `ra` (Python:
`random.uniform(0, total)`) passed explicitly: starts the walk with a
cumulative sum of `0` and returns whatever the loop produced (possibly
`None`). -/
def random_from_weighted {α : Type} (entries : List (α × ℚ)) (ra : ℚ) : Option α :=
  weighted_walk ra entries 0

/-- Total weight, Python `sum(d.values())`. -/
def total_weight {α : Type} (entries : List (α × ℚ)) : ℚ :=
  (entries.map Prod.snd).sum

/-- `runners.ScenarioRunner._select_random_scenario`, with the draw passed
explicitly and each scenario paired with its registered weight: returns
`None` on an empty scenario list, otherwise runs the same accumulation
loop and falls back to the last scenario when no entry matched. -/
def select_random_scenario {α : Type} (entries : List (α × ℚ)) (ra : ℚ) : Option α :=
  match entries with
  | [] => none
  | e :: rest =>
    match weighted_walk ra (e :: rest) 0 with
    | some k => some k
    | none => (((e :: rest).getLast?).map Prod.fst)

/-- Modelled from the claim wording for comparison: walk the entries in
order accumulating weight and return the first entry whose cumulative
weight is strictly greater than the draw (the `>` convention). -/
def spec_select_strict {α : Type} (ra : ℚ) : List (α × ℚ) → ℚ → Option α
  | [], _ => none
  | (k, w) :: rest, curr =>
    if curr + w > ra then some k else spec_select_strict ra rest (curr + w)

/-- Modelled from the amended wording: the same walk with the first
cumulative weight greater than or equal to the draw (the `≥` convention,
`ra ≤ curr + w`). -/
def spec_select_ge {α : Type} (ra : ℚ) : List (α × ℚ) → ℚ → Option α
  | [], _ => none
  | (k, w) :: rest, curr =>
    if curr + w ≥ ra then some k else spec_select_ge ra rest (curr + w)

/- ## Result aggregation (src/stress.py, class StressTestResult) -/

/-- The mutable state of `StressTestResult`: success and failure counters,
the latency buffer in milliseconds, and the recorded error messages.
Wall-clock start/end times are kept outside the structure and passed to
the derived metrics as an explicit elapsed duration. -/
structure StressTestResult where
  success_count : ℕ
  fail_count : ℕ
  response_times : List ℚ
  errors : List (List Char)
deriving DecidableEq

/-- `StressTestResult.__init__`: zero counters, empty buffers. -/
def StressTestResult.initial : StressTestResult :=
  { success_count := 0, fail_count := 0, response_times := [], errors := [] }

/-- `add_success`: increment the success counter and append the latency,
converted from seconds to milliseconds.  The whole mutation sits inside
`with self.lock`, so it is modelled as one atomic state update. -/
def add_success (st : StressTestResult) (response_time : ℚ) : StressTestResult :=
  { st with
    success_count := st.success_count + 1
    response_times := st.response_times ++ [response_time * 1000] }

/-- `add_failure`: increment the failure counter and append the error
message; no latency sample is recorded.  Also one atomic update under
`with self.lock`. -/
def add_failure (st : StressTestResult) (error : List Char) : StressTestResult :=
  { st with
    fail_count := st.fail_count + 1
    errors := st.errors ++ [error] }

/-- `total_count`: successes plus failures. -/
def total_count (st : StressTestResult) : ℕ :=
  st.success_count + st.fail_count

/-- `error_rate`: failures over total, guarded to `0` when the total is
`0`. -/
def error_rate (st : StressTestResult) : ℚ :=
  if total_count st = 0 then 0 else (st.fail_count : ℚ) / (total_count st : ℚ)

/-- `qps`: total over elapsed wall-clock seconds, guarded to `0` when the
elapsed time is `0`. -/
def qps (st : StressTestResult) (elapsed : ℚ) : ℚ :=
  if elapsed = 0 then 0 else (total_count st : ℚ) / elapsed

/-- `avg_response_time`: arithmetic mean of the latency buffer, `0` when
it is empty. -/
def avg_response_time (st : StressTestResult) : ℚ :=
  if st.response_times = [] then 0
  else st.response_times.sum / (st.response_times.length : ℚ)

/-- `min_response_time`: minimum of the buffer, `0` when empty. -/
def min_response_time (st : StressTestResult) : ℚ :=
  match st.response_times.foldr (fun x acc => some (match acc with
    | none => x
    | some m => min x m)) none with
  | none => 0
  | some m => m

/-- `max_response_time`: maximum of the buffer, `0` when empty. -/
def max_response_time (st : StressTestResult) : ℚ :=
  match st.response_times.foldr (fun x acc => some (match acc with
    | none => x
    | some m => max x m)) none with
  | none => 0
  | some m => m

/-- Python `sorted`: stable ascending sort of the latency buffer. -/
def sorted_times (times : List ℚ) : List ℚ :=
  List.insertionSort (· ≤ ·) times

/-- `p90_response_time`: `0` on an empty buffer, else the sorted buffer at
index `int(len * 0.9)`, modelled exactly as the floor of the rational
product. -/
def p90_response_time (st : StressTestResult) : ℚ :=
  if st.response_times = [] then 0
  else
    (sorted_times st.response_times).getD
      (Nat.floor ((st.response_times.length : ℚ) * (9 / 10))) 0

/-- `p95_response_time`: as `p90_response_time` with factor `0.95`. -/
def p95_response_time (st : StressTestResult) : ℚ :=
  if st.response_times = [] then 0
  else
    (sorted_times st.response_times).getD
      (Nat.floor ((st.response_times.length : ℚ) * (95 / 100))) 0

/-- `p99_response_time`: as `p90_response_time` with factor `0.99`. -/
def p99_response_time (st : StressTestResult) : ℚ :=
  if st.response_times = [] then 0
  else
    (sorted_times st.response_times).getD
      (Nat.floor ((st.response_times.length : ℚ) * (99 / 100))) 0

/-- The sample variance with Bessel correction (`n - 1` divisor), the
quantity whose square root `statistics.stdev` returns.  `statistics`
computes this with exact rational arithmetic internally. -/
def bessel_variance (times : List ℚ) : ℚ :=
  let n : ℚ := (times.length : ℚ)
  let mean := times.sum / n
  ((times.map (fun x => (x - mean) ^ 2)).sum) / (n - 1)

/-- `std_dev_response_time`: `0` for buffers of length `≤ 1`, else the
square root of the Bessel-corrected variance.  The square root (a real
float operation in Python) is abstracted as the function argument `sq`. -/
def std_dev_response_time (sq : ℚ → ℚ) (st : StressTestResult) : ℚ :=
  if st.response_times.length ≤ 1 then 0
  else sq (bessel_variance st.response_times)

/-- The record returned by `summary()`. -/
structure Summary where
  total_requests : ℕ
  success_count : ℕ
  fail_count : ℕ
  error_rate : ℚ
  total_time : ℚ
  qps : ℚ
  avg_response_time : ℚ
  min_response_time : ℚ
  max_response_time : ℚ
  p90_response_time : ℚ
  p95_response_time : ℚ
  p99_response_time : ℚ
  std_dev_response_time : ℚ
  errors : List (List Char)
deriving DecidableEq

/-- `summary()`: the derived metrics assembled into one record, with the
first ten recorded errors. -/
def summary (sq : ℚ → ℚ) (st : StressTestResult) (elapsed : ℚ) : Summary :=
  { total_requests := total_count st
    success_count := st.success_count
    fail_count := st.fail_count
    error_rate := error_rate st
    total_time := elapsed
    qps := qps st elapsed
    avg_response_time := avg_response_time st
    min_response_time := min_response_time st
    max_response_time := max_response_time st
    p90_response_time := p90_response_time st
    p95_response_time := p95_response_time st
    p99_response_time := p99_response_time st
    std_dev_response_time := std_dev_response_time sq st
    errors := st.errors.take 10 }

/- ## Executor boundary (src/stress.py, worker) -/

/-- The message recorded by `worker` on a caught exception, Python
`f"{type(e).__name__}: {str(e)}"`. -/
def format_exc (e : PyExc) : List Char :=
  e.excType ++ (": ").toList ++ e.msg

/-- `worker(scenario_func, query, result)`: runs one scenario invocation
against the shared session.  The invocation is modelled by its outcome
`o` (normal return or raised exception) and its measured elapsed time.
A normal return records a success with the elapsed latency; a raised
exception is caught by `except Exception` and recorded as a failure with
the formatted message.  The result is wrapped in `Except` so that a
re-raise out of `worker` would show up as an `Except.error`: there is
none. -/
def worker (o : Except PyExc Unit) (elapsed : ℚ) (st : StressTestResult) :
    Except PyExc StressTestResult :=
  match o with
  | Except.ok _ => Except.ok (add_success st elapsed)
  | Except.error e => Except.ok (add_failure st (format_exc e))

/- ## Error classification (src/web/app.py, execute_scenario) -/

/-- Python `pat in msg`: `listPrefixOf` is string-prefix test, and
`containsSub` tests substring containment at any position. -/
def listPrefixOf (pat msg : List Char) : Bool :=
  match pat, msg with
  | [], _ => true
  | _ :: _, [] => false
  | a :: as, b :: bs => a == b && listPrefixOf as bs

/-- Substring containment, Python `pat in msg`. -/
def containsSub (pat : List Char) : List Char → Bool
  | [] => listPrefixOf pat []
  | c :: rest => listPrefixOf pat (c :: rest) || containsSub pat rest

/-- The error taxonomy of the spec data model. -/
inductive ErrorKind where
  | httpError (code : ℕ)
  | connectionRefused
  | timeout
  | protocolError
  | other
deriving DecidableEq

/-- The pattern strings tested by the exception handler of
`execute_scenario` in `src/web/app.py`. -/
def pat_conn_refused : List Char := ("Connection refused").toList

/-- Substring pattern for a 502 gateway error. -/
def pat502 : List Char := ("502").toList

/-- Substring pattern for a 500 server error. -/
def pat500 : List Char := ("500").toList

/-- Substring pattern for a 504 gateway timeout. -/
def pat504 : List Char := ("504").toList

/-- The error classification branch of `execute_scenario` in
`src/web/app.py` (lines 266-275): test the caught error message for the
substring `"Connection refused"`, then `"502"`, `"500"`, `"504"` in that
order, anything else counts as other. -/
def classify_error (msg : List Char) : ErrorKind :=
  if containsSub pat_conn_refused msg then ErrorKind.connectionRefused
  else if containsSub pat502 msg then ErrorKind.httpError 502
  else if containsSub pat500 msg then ErrorKind.httpError 500
  else if containsSub pat504 msg then ErrorKind.httpError 504
  else ErrorKind.other

/-- Bare pattern `"refused"` named by the claim wording. -/
def pat_refused : List Char := ("refused").toList

/-- Modelled from the claim wording for comparison: a substring match for
`"refused"` yields ConnectionRefused, the codes 500/502/504 yield
HTTPError(code), anything else Other. -/
def spec_classify (msg : List Char) : ErrorKind :=
  if containsSub pat_refused msg then ErrorKind.connectionRefused
  else if containsSub pat500 msg then ErrorKind.httpError 500
  else if containsSub pat502 msg then ErrorKind.httpError 502
  else if containsSub pat504 msg then ErrorKind.httpError 504
  else ErrorKind.other

/- ## Periodic cycle runner (src/timed_task.py, TimedTaskRunner) -/

/-- What one call of `TimedTaskRunner.run_next_scenario` did: the
scenario index executed (`none` when the call aborted before reaching
the scenario), the new cycle index, whether the health-file write was
attempted and whether it succeeded, and whether the call let an
exception escape to the caller. -/
structure TickResult where
  executed : Option ℕ
  new_index : ℕ
  health_write_attempted : Bool
  health_write_ok : Bool
  raised : Bool
deriving DecidableEq

/-- `TimedTaskRunner.run_next_scenario` for an initialised runner
(`self.query` set, `N = self.total_scenarios` scenarios).  The call
first runs `self.refresh_token_if_needed()` outside any `try` block; on
a refresh-due tick that preamble calls `self.query.refresh_token()`, a
method `Query` does not define, so it raises `AttributeError` and the
whole call raises before the scenario runs: nothing is executed, no
write is attempted and the index is left unchanged.  When the preamble
returns, the scenario at `self.current_scenario_index` runs inside a
`try` block; only when it returns normally does the nested `try` attempt
the health-file write, whose own failure is caught by the inner
`except`; a scenario exception is caught by the outer `except` and skips
the write.  On every path past the preamble the index advances to
`(index + 1) % N` after the `try`/`except`.  The preamble, the scenario
call and the file write are modelled by their outcomes. -/
def run_next_scenario (N idx : ℕ) (refresh scen write : Except PyExc Unit) :
    TickResult :=
  match refresh with
  | Except.error _ =>
    { executed := none
      new_index := idx
      health_write_attempted := false
      health_write_ok := false
      raised := true }
  | Except.ok _ =>
    match scen with
    | Except.ok _ =>
      { executed := some idx
        new_index := (idx + 1) % N
        health_write_attempted := true
        health_write_ok := except_ok write
        raised := false }
    | Except.error _ =>
      { executed := some idx
        new_index := (idx + 1) % N
        health_write_attempted := false
        health_write_ok := false
        raised := false }

/-- The post-tick index trace of the runner: `ticks` consecutive calls of
`run_next_scenario`, with the refresh, scenario and write outcomes of
each tick supplied by oracles. -/
def cycle_trace (N : ℕ) (refresh scen write : ℕ → Except PyExc Unit) :
    ℕ → ℕ → List ℕ
  | 0, _ => []
  | t + 1, i =>
    let r := run_next_scenario N i (refresh t) (scen t) (write t)
    r.new_index :: cycle_trace N refresh scen write t r.new_index

/- ## Concurrent recording (src/stress.py, thread workers) -/

/-- One completed invocation as it reaches the aggregator: either a
success with its latency or a failure with its message. -/
inductive RecordOp where
  | success (response_time : ℚ)
  | failure (error : List Char)
deriving DecidableEq

/-- Apply one record to the aggregator state.  Because `add_success` and
`add_failure` perform their whole mutation inside `with self.lock`, each
record is one atomic step, and a concurrent execution is an interleaving
of these steps. -/
def apply_record (st : StressTestResult) : RecordOp → StressTestResult
  | RecordOp.success t => add_success st t
  | RecordOp.failure e => add_failure st e

/-- Run a serialised sequence of records against the aggregator. -/
def run_records (ops : List RecordOp) (st : StressTestResult) : StressTestResult :=
  ops.foldl apply_record st

/- ## Helper lemmas -/

lemma floor_mul_nine_tenths (n : ℕ) : Nat.floor ((n : ℚ) * (9 / 10)) = 9 * n / 10 := by
  have h : ((n : ℚ) * (9 / 10)) = ((9 * n : ℕ) : ℚ) / ((10 : ℕ) : ℚ) := by
    push_cast; ring
  rw [h, Nat.floor_div_nat, Nat.floor_natCast]

lemma floor_mul_95_hundredths (n : ℕ) :
    Nat.floor ((n : ℚ) * (95 / 100)) = 95 * n / 100 := by
  have h : ((n : ℚ) * (95 / 100)) = ((95 * n : ℕ) : ℚ) / ((100 : ℕ) : ℚ) := by
    push_cast; ring
  rw [h, Nat.floor_div_nat, Nat.floor_natCast]

lemma floor_mul_99_hundredths (n : ℕ) :
    Nat.floor ((n : ℚ) * (99 / 100)) = 99 * n / 100 := by
  have h : ((n : ℚ) * (99 / 100)) = ((99 * n : ℕ) : ℚ) / ((100 : ℕ) : ℚ) := by
    push_cast; ring
  rw [h, Nat.floor_div_nat, Nat.floor_natCast]

lemma qps_initial (elapsed : ℚ) : qps StressTestResult.initial elapsed = 0 := by
  rcases eq_or_ne elapsed 0 with h | h <;>
    simp [qps, total_count, StressTestResult.initial, h]

/-- C1: for every latency sample, the reported p90/p95/p99 percentile is 0
when the sample is empty and otherwise equals the element of the sorted
sample at index floor(len * p), the floor realised as natural-number
division. -/
theorem C1_percentile_floor_index (st : StressTestResult) :
    (p90_response_time st =
      if st.response_times = [] then 0
      else (sorted_times st.response_times).getD
        (9 * st.response_times.length / 10) 0) ∧
    (p95_response_time st =
      if st.response_times = [] then 0
      else (sorted_times st.response_times).getD
        (95 * st.response_times.length / 100) 0) ∧
    (p99_response_time st =
      if st.response_times = [] then 0
      else (sorted_times st.response_times).getD
        (99 * st.response_times.length / 100) 0) := by
  refine ⟨?_, ?_, ?_⟩ <;>
    rcases eq_or_ne st.response_times [] with h | h <;>
      simp [p90_response_time, p95_response_time, p99_response_time, h,
        floor_mul_nine_tenths, floor_mul_95_hundredths, floor_mul_99_hundredths]

/-- C6: summary on zero records returns all-zero counters and 0 for qps,
every percentile, the average, the extrema and the standard deviation,
with no division-by-zero fault; moreover error_rate guards total = 0, qps
guards elapsed = 0, and the standard deviation is 0 for samples of size
at most 1. -/
theorem C6_zero_records_summary :
    (∀ (sq : ℚ → ℚ) (elapsed : ℚ),
      summary sq StressTestResult.initial elapsed =
        { total_requests := 0, success_count := 0, fail_count := 0,
          error_rate := 0, total_time := elapsed, qps := 0,
          avg_response_time := 0, min_response_time := 0,
          max_response_time := 0, p90_response_time := 0,
          p95_response_time := 0, p99_response_time := 0,
          std_dev_response_time := 0, errors := [] }) ∧
    (∀ st : StressTestResult, total_count st = 0 → error_rate st = 0) ∧
    (∀ st : StressTestResult, qps st 0 = 0) ∧
    (∀ (sq : ℚ → ℚ) (st : StressTestResult), st.response_times.length ≤ 1 →
      std_dev_response_time sq st = 0) := by
  refine ⟨?_, ?_, ?_, ?_⟩
  · intro sq elapsed
    have hq : qps StressTestResult.initial elapsed = 0 := qps_initial elapsed
    simp [StressTestResult.initial] at hq
    simp [summary, StressTestResult.initial, total_count, error_rate,
      hq, avg_response_time, min_response_time, max_response_time,
      p90_response_time, p95_response_time, p99_response_time,
      std_dev_response_time]
  · intro st h
    simp [error_rate, h]
  · intro st
    simp [qps]
  · intro sq st h
    simp [std_dev_response_time, h]

/-- Witness for C6: the guarded clauses applied to the fresh aggregator. -/
theorem C6_zero_records_summary_witness :
    error_rate StressTestResult.initial = 0 ∧
    std_dev_response_time id StressTestResult.initial = 0 :=
  ⟨C6_zero_records_summary.2.1 StressTestResult.initial (by decide),
   C6_zero_records_summary.2.2.2 id StressTestResult.initial (by decide)⟩

/-- C3: one invocation through the worker boundary never propagates an
exception (the returned `Except` is always `ok`), records exactly one
outcome, a success with the measured latency on normal return and a
failure with the formatted message on a raised exception. -/
theorem C3_worker_never_raises :
    ∀ (o : Except PyExc Unit) (t : ℚ) (st : StressTestResult),
      (∃ st2, worker o t st = Except.ok st2 ∧
        total_count st2 = total_count st + 1) ∧
      (∀ u : Unit, worker (Except.ok u) t st = Except.ok (add_success st t)) ∧
      (∀ e : PyExc,
        worker (Except.error e) t st = Except.ok (add_failure st (format_exc e))) := by
  intro o t st
  refine ⟨?_, fun u => rfl, fun e => rfl⟩
  cases o with
  | ok u =>
    exact ⟨add_success st t, rfl, by simp [add_success, total_count]; omega⟩
  | error e =>
    exact ⟨add_failure st (format_exc e), rfl, by
      simp [add_failure, total_count]; omega⟩

lemma total_count_apply_record (st : StressTestResult) (op : RecordOp) :
    total_count (apply_record st op) = total_count st + 1 := by
  cases op <;> simp [apply_record, add_success, add_failure, total_count] <;> omega

lemma total_count_run_records (ops : List RecordOp) :
    ∀ st : StressTestResult,
      total_count (run_records ops st) = total_count st + ops.length := by
  induction ops with
  | nil => intro st; simp [run_records]
  | cons op rest ih =>
    intro st
    have h := ih (apply_record st op)
    simp [run_records] at h ⊢
    rw [h, total_count_apply_record]
    omega

/-- C7: under the per-record critical section each record call is one
atomic step, so a concurrent run by K workers of M records each is an
interleaving of the K traces — some permutation of their concatenation —
and replaying any such permutation against a fresh aggregator gives
total_count = K * M exactly: no update is lost. -/
theorem C7_no_lost_updates (K M : ℕ) (traces : List (List RecordOp))
    (ops : List RecordOp) (hK : traces.length = K)
    (hM : ∀ t ∈ traces, t.length = M) (hperm : ops.Perm traces.flatten) :
    total_count (run_records ops StressTestResult.initial) = K * M := by
  have hlen : ops.length = K * M := by
    rw [hperm.length_eq, List.length_flatten]
    have hall : ∀ x ∈ traces.map List.length, x = M := by
      intro x hx
      rcases List.mem_map.mp hx with ⟨t, ht, rfl⟩
      exact hM t ht
    rw [List.sum_eq_card_nsmul _ M hall, List.length_map, hK, smul_eq_mul]
  rw [total_count_run_records, hlen]
  simp [total_count, StressTestResult.initial]

/-- Witness for C7: two workers with one record each, replayed in one
concrete interleaving. -/
theorem C7_no_lost_updates_witness :
    total_count (run_records
      [RecordOp.success 1, RecordOp.failure (("x").toList)]
      StressTestResult.initial) = 2 * 1 :=
  C7_no_lost_updates 2 1
    [[RecordOp.success 1], [RecordOp.failure (("x").toList)]]
    [RecordOp.success 1, RecordOp.failure (("x").toList)]
    rfl (by decide) (by decide)

lemma buffer_invariant_apply (st : StressTestResult) (op : RecordOp)
    (h : st.response_times.length = st.success_count) :
    (apply_record st op).response_times.length =
      (apply_record st op).success_count := by
  cases op <;> simp [apply_record, add_success, add_failure, h]

/-- C10: after any sequence of record calls on a fresh aggregator, the
latency buffer holds exactly success_count entries: failures record no
latency sample, so the response-time metrics range over successful
requests only. -/
theorem C10_buffer_counts_successes :
    ∀ ops : List RecordOp,
      (run_records ops StressTestResult.initial).response_times.length =
        (run_records ops StressTestResult.initial).success_count := by
  have gen : ∀ (ops : List RecordOp) (st : StressTestResult),
      st.response_times.length = st.success_count →
      (run_records ops st).response_times.length =
        (run_records ops st).success_count := by
    intro ops
    induction ops with
    | nil => intro st h; simpa [run_records] using h
    | cons op rest ih =>
      intro st h
      simpa [run_records] using ih (apply_record st op) (buffer_invariant_apply st op h)
  intro ops
  exact gen ops StressTestResult.initial (by simp [StressTestResult.initial])

lemma weighted_walk_eq_ge {α : Type} (ra : ℚ) :
    ∀ (l : List (α × ℚ)) (curr : ℚ),
      weighted_walk ra l curr = spec_select_ge ra l curr := by
  intro l
  induction l with
  | nil => intro curr; rfl
  | cons e rest ih =>
    intro curr
    obtain ⟨k, w⟩ := e
    simp only [weighted_walk, spec_select_ge, ge_iff_le]
    rw [ih]

lemma weighted_walk_hits {α : Type} (ra : ℚ) :
    ∀ (l : List (α × ℚ)) (curr : ℚ), l ≠ [] →
      ra ≤ curr + total_weight l → ∃ k, weighted_walk ra l curr = some k := by
  intro l
  induction l with
  | nil => intro curr h; exact absurd rfl h
  | cons e rest ih =>
    intro curr _ hle
    obtain ⟨k, w⟩ := e
    by_cases hcase : ra ≤ curr + w
    · exact ⟨k, by simp [weighted_walk, hcase]⟩
    · rcases List.eq_nil_or_concat rest with hnil | _
      · subst hnil
        exfalso
        apply hcase
        simpa [total_weight] using hle
      · have hrest : rest ≠ [] := by
          rintro rfl
          exact hcase (by simpa [total_weight] using hle)
        have hle2 : ra ≤ (curr + w) + total_weight rest := by
          have : total_weight ((k, w) :: rest) = w + total_weight rest := by
            simp [total_weight]
          rw [this] at hle
          linarith
        obtain ⟨k2, hk2⟩ := ih (curr + w) hrest hle2
        exact ⟨k2, by simp [weighted_walk, hcase, hk2]⟩

/-- C2 counterexample: two unit-weight entries and the boundary draw
r = 1 (inside [0, 2), all weights positive): the code returns the first
entry, whose cumulative weight equals the draw, while the claimed strict
convention would return the second. -/
theorem C2_counterexample :
    random_from_weighted [((0 : ℕ), (1 : ℚ)), (1, 1)] 1 = some 0 ∧
    spec_select_strict (1 : ℚ) [((0 : ℕ), (1 : ℚ)), (1, 1)] 0 = some 1 ∧
    random_from_weighted [((0 : ℕ), (1 : ℚ)), (1, 1)] 1 ≠
      spec_select_strict (1 : ℚ) [((0 : ℕ), (1 : ℚ)), (1, 1)] 0 := by
  have h1 : random_from_weighted [((0 : ℕ), (1 : ℚ)), (1, 1)] 1 = some 0 := by
    norm_num [random_from_weighted, weighted_walk]
  have h2 : spec_select_strict (1 : ℚ) [((0 : ℕ), (1 : ℚ)), (1, 1)] 0 = some 1 := by
    norm_num [spec_select_strict]
  refine ⟨h1, h2, ?_⟩
  rw [h1, h2]
  simp

/-- C2 amended: for a non-empty mapping with positive weights and a draw
in [0, totalWeight), both selection routines walk the entries in their
stable order and return the first entry whose cumulative weight is
greater than or equal to the draw (the Python test `ra <= curr_sum`),
and such an entry always exists. -/
theorem C2_first_cumulative_ge (α : Type) (entries : List (α × ℚ)) (ra : ℚ)
    (hne : entries ≠ []) (hpos : ∀ p ∈ entries, 0 < p.2)
    (h0 : 0 ≤ ra) (hlt : ra < total_weight entries) :
    random_from_weighted entries ra = spec_select_ge ra entries 0 ∧
    select_random_scenario entries ra = spec_select_ge ra entries 0 ∧
    ∃ k, random_from_weighted entries ra = some k := by
  have hsome : ∃ k, weighted_walk ra entries 0 = some k :=
    weighted_walk_hits ra entries 0 hne (by linarith)
  obtain ⟨k, hk⟩ := hsome
  refine ⟨weighted_walk_eq_ge ra entries 0, ?_, ⟨k, hk⟩⟩
  cases entries with
  | nil => exact absurd rfl hne
  | cons e rest =>
    rw [← weighted_walk_eq_ge]
    simp [select_random_scenario, hk]

/-- Witness for C2 amended: entries with weights 2 and 1 and the draw
3/2. -/
theorem C2_first_cumulative_ge_witness :
    random_from_weighted [((0 : ℕ), (2 : ℚ)), (1, 1)] (3 / 2) =
      spec_select_ge (3 / 2) [((0 : ℕ), (2 : ℚ)), (1, 1)] 0 ∧
    select_random_scenario [((0 : ℕ), (2 : ℚ)), (1, 1)] (3 / 2) =
      spec_select_ge (3 / 2) [((0 : ℕ), (2 : ℚ)), (1, 1)] 0 ∧
    ∃ k, random_from_weighted [((0 : ℕ), (2 : ℚ)), (1, 1)] (3 / 2) = some k :=
  C2_first_cumulative_ge ℕ [((0 : ℕ), (2 : ℚ)), (1, 1)] (3 / 2)
    (by simp) (by intro p hp; fin_cases hp <;> norm_num) (by norm_num)
    (by norm_num [total_weight])

/-- C4 counterexample: for the all-zero singleton mapping the only draw
the code can make is uniform(0, 0) = 0, and the selector then returns
the first key rather than failing; for the empty mapping it returns
None, again without raising any EmptyCatalog error. -/
theorem C4_counterexample :
    random_from_weighted [((0 : ℕ), (0 : ℚ))] 0 = some 0 ∧
    random_from_weighted ([] : List (ℕ × ℚ)) 0 = none := by
  constructor
  · norm_num [random_from_weighted, weighted_walk]
  · rfl

/-- C4 amended: the selectors never raise: on an empty mapping both
return None as an ordinary value, and on a mapping whose weights are all
zero the draw 0 (the only value uniform(0, 0) produces) returns the
first key. -/
theorem C4_no_empty_catalog_failure :
    (∀ (α : Type) (ra : ℚ), random_from_weighted ([] : List (α × ℚ)) ra = none) ∧
    (∀ (α : Type) (ra : ℚ), select_random_scenario ([] : List (α × ℚ)) ra = none) ∧
    (∀ (α : Type) (k : α) (rest : List (α × ℚ)),
      random_from_weighted ((k, 0) :: rest) 0 = some k) := by
  refine ⟨fun α ra => rfl, fun α ra => rfl, fun α k rest => ?_⟩
  simp [random_from_weighted, weighted_walk]

/-- C5 counterexample: the message "connection refused" (lower-case c, as
a raw socket error may carry) contains the substring "refused", so the
claimed heuristic classifies it ConnectionRefused, but the code tests
the exact substring "Connection refused" and classifies it Other. -/
theorem C5_counterexample :
    classify_error (("connection refused").toList) = ErrorKind.other ∧
    spec_classify (("connection refused").toList) = ErrorKind.connectionRefused ∧
    classify_error (("connection refused").toList) ≠
      spec_classify (("connection refused").toList) := by
  refine ⟨?_, ?_, ?_⟩ <;> decide

/-- C5 amended: the stress worker records a caught error as the plain
formatted message string with no ErrorKind attached; the classification
heuristic lives in the web executor and tests the message for the exact
substring "Connection refused" first, then "502", "500", "504" in that
order, yielding HTTPError(code) for the three codes and Other
otherwise. -/
theorem C5_classification (msg : List Char) :
    (containsSub pat_conn_refused msg = true →
      classify_error msg = ErrorKind.connectionRefused) ∧
    (containsSub pat_conn_refused msg = false →
      containsSub pat502 msg = true →
      classify_error msg = ErrorKind.httpError 502) ∧
    (containsSub pat_conn_refused msg = false →
      containsSub pat502 msg = false →
      containsSub pat500 msg = true →
      classify_error msg = ErrorKind.httpError 500) ∧
    (containsSub pat_conn_refused msg = false →
      containsSub pat502 msg = false →
      containsSub pat500 msg = false →
      containsSub pat504 msg = true →
      classify_error msg = ErrorKind.httpError 504) ∧
    (containsSub pat_conn_refused msg = false →
      containsSub pat502 msg = false →
      containsSub pat500 msg = false →
      containsSub pat504 msg = false →
      classify_error msg = ErrorKind.other) ∧
    (∀ (e : PyExc) (t : ℚ) (st : StressTestResult),
      worker (Except.error e) t st = Except.ok (add_failure st (format_exc e))) := by
  refine ⟨?_, ?_, ?_, ?_, ?_, fun e t st => rfl⟩ <;>
    intros <;> simp_all [classify_error]

/-- Witness for C5 amended: the exact pattern classifies as
ConnectionRefused. -/
theorem C5_classification_witness :
    classify_error (("Connection refused").toList) = ErrorKind.connectionRefused :=
  (C5_classification (("Connection refused").toList)).1 (by decide)

/-- The pure index recursion of the cycle, used to evaluate a trace. -/
def index_trace (N : ℕ) : ℕ → ℕ → List ℕ
  | 0, _ => []
  | t + 1, i => ((i + 1) % N) :: index_trace N t ((i + 1) % N)

lemma run_next_scenario_new_index (N idx : ℕ) (scen write : Except PyExc Unit) :
    (run_next_scenario N idx (Except.ok ()) scen write).new_index = (idx + 1) % N := by
  cases scen <;> rfl

lemma cycle_trace_eq_index_trace (N : ℕ) (scen write : ℕ → Except PyExc Unit) :
    ∀ (t i : ℕ),
      cycle_trace N (fun _ => Except.ok ()) scen write t i = index_trace N t i := by
  intro t
  induction t with
  | zero => intro i; rfl
  | succ t ih =>
    intro i
    simp only [cycle_trace, index_trace, run_next_scenario_new_index]
    rw [ih]

/-- The `AttributeError` that the refresh preamble raises on a
refresh-due tick: `Query` defines no `refresh_token` method. -/
def attribute_error : PyExc :=
  { excType := ("AttributeError").toList
    msg := ("Query object has no attribute refresh_token").toList }

/-- C8: the code at the failing input.  A refresh-due tick raises
`AttributeError` out of the pre-try preamble, so it executes no scenario
and leaves the cycle index unchanged, against the claim that every tick
executes the scenario at cycleIndex and then advances; on ticks whose
preamble returns, the claimed behaviour holds, including the 7-tick
post-tick index sequence 1, 2, 0, 1, 2, 0, 1 for N = 3. -/
theorem C8_refresh_due_tick_aborts :
    (∀ (N idx : ℕ) (scen write : Except PyExc Unit),
      (run_next_scenario N idx (Except.error attribute_error) scen write).executed
        = none ∧
      (run_next_scenario N idx (Except.error attribute_error) scen write).new_index
        = idx ∧
      (run_next_scenario N idx (Except.error attribute_error) scen write).raised
        = true) ∧
    (∀ (N idx : ℕ) (scen write : Except PyExc Unit),
      (run_next_scenario N idx (Except.ok ()) scen write).executed = some idx ∧
      (run_next_scenario N idx (Except.ok ()) scen write).new_index
        = (idx + 1) % N) ∧
    (∀ scen write : ℕ → Except PyExc Unit,
      cycle_trace 3 (fun _ => Except.ok ()) scen write 7 0
        = [1, 2, 0, 1, 2, 0, 1]) := by
  refine ⟨fun N idx scen write => ⟨rfl, rfl, rfl⟩, ?_, ?_⟩
  · intro N idx scen write
    exact ⟨by cases scen <;> rfl, run_next_scenario_new_index N idx scen write⟩
  · intro scen write
    rw [cycle_trace_eq_index_trace]
    decide

/-- A concrete scenario-level exception. -/
def sample_exc : PyExc :=
  { excType := ("RuntimeError").toList, msg := ("boom").toList }

/-- C9 counterexample: on a tick that reaches the try block but whose
scenario raises, the runner does not attempt the health-file write at
all, so the liveness record is not written after every tick. -/
theorem C9_counterexample :
    (run_next_scenario 10 0 (Except.ok ()) (Except.error sample_exc)
      (Except.ok ())).health_write_attempted = false := rfl

/-- C9 amended: the liveness record is written only on ticks whose
refresh preamble returns and whose scenario execution succeeds — a
raising scenario skips the write, and a refresh-due tick aborts before
anything runs.  A failure of the write itself is caught and logged and
is not fatal: every tick that reaches the try block returns without
raising and advances the cycle index. -/
theorem C9_health_write_on_success :
    ∀ (N idx : ℕ),
      (∀ refresh scen write : Except PyExc Unit,
        (run_next_scenario N idx refresh scen write).health_write_attempted =
          (except_ok refresh && except_ok scen)) ∧
      (∀ scen write : Except PyExc Unit,
        (run_next_scenario N idx (Except.ok ()) scen write).raised = false ∧
        (run_next_scenario N idx (Except.ok ()) scen write).new_index =
          (idx + 1) % N) ∧
      (∀ e : PyExc,
        (run_next_scenario N idx (Except.ok ()) (Except.ok ())
          (Except.error e)).health_write_attempted = true ∧
        (run_next_scenario N idx (Except.ok ()) (Except.ok ())
          (Except.error e)).health_write_ok = false ∧
        (run_next_scenario N idx (Except.ok ()) (Except.ok ())
          (Except.error e)).raised = false) := by
  intro N idx
  refine ⟨?_, ?_, fun e => ⟨rfl, rfl, rfl⟩⟩
  · intro refresh scen write
    cases refresh <;> cases scen <;> rfl
  · intro scen write
    exact ⟨by cases scen <;> rfl, run_next_scenario_new_index N idx scen write⟩
